import Mathlib

set_option maxRecDepth 8000

/-!
Verification of the schema-manager migration engine: a shallow embedding of
the Prisma-schema parser, the SQL-migration replay parser, the type-mapping
and cast-safety engine, the schema differ and the migration SQL generator,
together with proofs of the specified properties.
-/

namespace SchemaMgr

/-! ### String helpers mirroring the Go standard library functions used.
All of them compute on the character list so that concrete instances reduce
inside the kernel. -/

/-- Does the pattern occur at the head of the character list? -/
def leadsWith : List Char → List Char → Bool
  | [], _ => true
  | _ :: _, [] => false
  | p :: ps, c :: cs => p = c && leadsWith ps cs

/-- Go strings.HasPrefix. -/
def startsWithStr (s pre : String) : Bool :=
  leadsWith pre.toList s.toList

/-- Go strings.HasSuffix. -/
def endsWithStr (s suf : String) : Bool :=
  leadsWith suf.toList.reverse s.toList.reverse

/-- Go strings.ToUpper (ASCII range, as exercised here). -/
def toUpperStr (s : String) : String :=
  String.mk (s.toList.map Char.toUpper)

/-- Go strings.ToLower (ASCII range, as exercised here). -/
def toLowerStr (s : String) : String :=
  String.mk (s.toList.map Char.toLower)

/-- Go strings.TrimSpace. -/
def trimWS (s : String) : String :=
  String.mk (((s.toList.dropWhile Char.isWhitespace).reverse.dropWhile
    Char.isWhitespace).reverse)

/-- Go strings.TrimSuffix: drop one trailing occurrence of the suffix. -/
def trimSuffix1 (s suf : String) : String :=
  if endsWithStr s suf then
    String.mk ((s.toList.reverse.drop suf.toList.length).reverse)
  else s

/-- Go strings.TrimPrefix: drop one leading occurrence of the given lead. -/
def dropLead (s pre : String) : String :=
  if startsWithStr s pre then String.mk (s.toList.drop pre.toList.length)
  else s

/-- Go strings.Contains on character lists. -/
def listContainsSub : List Char → List Char → Bool
  | [], pat => pat.isEmpty
  | c :: cs, pat => leadsWith pat (c :: cs) || listContainsSub cs pat

/-- Go strings.Contains. -/
def containsSub (s pat : String) : Bool :=
  listContainsSub s.toList pat.toList

/-- Go strings.Split with a one-character separator, on character lists. -/
def splitOnCharL (sep : Char) : List Char → List (List Char)
  | [] => [[]]
  | c :: cs =>
    match splitOnCharL sep cs with
    | [] => [[c]]
    | g :: gs => if c = sep then [] :: g :: gs else (c :: g) :: gs

/-- Go strings.Split with a one-character separator. -/
def splitOnStr (s : String) (sep : Char) : List String :=
  (splitOnCharL sep s.toList).map String.mk

/-- Go strings.Join. -/
def joinSep (sep : String) : List String → String
  | [] => ""
  | [x] => x
  | x :: xs => x ++ sep ++ joinSep sep xs

/-- The word splitter behind Go strings.Fields: the first component holds
the current word reversed. -/
def wsFieldsAux : List Char → List Char → List (List Char)
  | cur, [] => if cur.isEmpty then [] else [cur.reverse]
  | cur, c :: cs =>
    if Char.isWhitespace c then
      if cur.isEmpty then wsFieldsAux [] cs
      else cur.reverse :: wsFieldsAux [] cs
    else wsFieldsAux (c :: cur) cs

/-- Go strings.Fields: split on whitespace runs, dropping empty pieces. -/
def fieldsOf (s : String) : List String :=
  (wsFieldsAux [] s.toList).map String.mk

/-- First index of a character in a list, if present (Go strings.Index on a
one-character pattern, in characters). -/
def charIdx : List Char → Char → Option Nat
  | [], _ => none
  | c :: cs, t => if c = t then some 0 else (charIdx cs t).map (· + 1)

/-- Go strings.Trim with a cutset: strip leading and trailing characters
drawn from the cutset. -/
def trimChars (s : String) (cutset : List Char) : String :=
  String.mk (((s.toList.dropWhile (cutset.contains ·)).reverse.dropWhile
    (cutset.contains ·)).reverse)

/-- The text before the first occurrence of the character, and the text
after it, when the character occurs (Go strings.Index + slicing). -/
def splitAtFirstChar (s : String) (t : Char) : Option (String × String) :=
  if s.toList.contains t then
    some (String.mk (s.toList.takeWhile (· ≠ t)),
          String.mk ((s.toList.dropWhile (· ≠ t)).drop 1))
  else none

/-- The text strictly between the first occurrences of two characters
(Go pattern: strings.Index for both, then a slice), as used for
bracket extraction in relation arguments. -/
def sliceBetween (s : String) (l r : Char) : Option String :=
  match charIdx s.toList l, charIdx s.toList r with
  | some i, some j => some (String.mk ((s.toList.drop (i + 1)).take (j - (i + 1))))
  | _, _ => none

/-! ### Data model (source.go). -/

structure FieldAttribute where
  Name : String
  Args : List String
deriving Repr, DecidableEq

structure ModelAttribute where
  Name : String
  Args : List String
deriving Repr, DecidableEq

/-- A column. The source field named `Type` is rendered `Typ` here. -/
structure Field where
  Name : String
  ColumnName : String
  Typ : String
  Attributes : List FieldAttribute
  IsOptional : Bool
  IsArray : Bool
deriving Repr, DecidableEq

structure Model where
  Name : String
  TableName : String
  Fields : List Field
  Attributes : List ModelAttribute
deriving Repr, DecidableEq

structure Enum where
  Name : String
  Values : List String
deriving Repr, DecidableEq

structure Schema where
  Models : List Model
  Enums : List Enum
deriving Repr, DecidableEq

/-! ### Type mapping and cast-safety engine (type_cast.go). -/

structure TypeCastResult where
  CanCast : Bool
  CastExpression : String
  IsRisky : Bool
  WarningMessage : String
deriving Repr, DecidableEq

/-- GetPostgreSQLType: the Prisma-to-PostgreSQL lookup table, falling back
to the original type. -/
def GetPostgreSQLType (prismaType : String) : String :=
  if prismaType = "String" then "TEXT"
  else if prismaType = "Int" then "INTEGER"
  else if prismaType = "BigInt" then "BIGINT"
  else if prismaType = "Float" then "DOUBLE PRECISION"
  else if prismaType = "Decimal" then "NUMERIC"
  else if prismaType = "Boolean" then "BOOLEAN"
  else if prismaType = "DateTime" then "TIMESTAMP"
  else if prismaType = "Json" then "JSONB"
  else prismaType

/-- The casting compatibility matrix of CanCastType, keyed by the two
PostgreSQL types (the nested Go map lookups). -/
def lookupCastRule (s t : String) : Option TypeCastResult :=
  if s = "BIGINT" then
    if t = "INTEGER" then some ⟨true, "::INTEGER", true,
      "Converting BIGINT to INTEGER may fail if values exceed INTEGER range (-2,147,483,648 to 2,147,483,647)"⟩
    else if t = "TEXT" then some ⟨true, "::TEXT", false, ""⟩
    else if t = "DOUBLE PRECISION" then some ⟨true, "::DOUBLE PRECISION", false, ""⟩
    else none
  else if s = "INTEGER" then
    if t = "BIGINT" then some ⟨true, "::BIGINT", false, ""⟩
    else if t = "TEXT" then some ⟨true, "::TEXT", false, ""⟩
    else if t = "DOUBLE PRECISION" then some ⟨true, "::DOUBLE PRECISION", false, ""⟩
    else if t = "BOOLEAN" then some ⟨true, "::BOOLEAN", false,
      "Converting INTEGER to BOOLEAN: 0 = false, any other value = true"⟩
    else none
  else if s = "TEXT" then
    if t = "INTEGER" then some ⟨true, "::INTEGER", true,
      "Converting TEXT to INTEGER may fail if text contains non-numeric values"⟩
    else if t = "BIGINT" then some ⟨true, "::BIGINT", true,
      "Converting TEXT to BIGINT may fail if text contains non-numeric values"⟩
    else if t = "DOUBLE PRECISION" then some ⟨true, "::DOUBLE PRECISION", true,
      "Converting TEXT to DOUBLE PRECISION may fail if text contains non-numeric values"⟩
    else if t = "BOOLEAN" then some ⟨true, "::BOOLEAN", true,
      "Converting TEXT to BOOLEAN may fail if text is not 't', 'f', 'true', 'false', '1', or '0'"⟩
    else if t = "TIMESTAMP" then some ⟨true, "::TIMESTAMP", true,
      "Converting TEXT to TIMESTAMP may fail if text is not in valid timestamp format"⟩
    else if t = "JSONB" then some ⟨true, "::JSONB", true,
      "Converting TEXT to JSONB may fail if text is not valid JSON"⟩
    else none
  else if s = "DOUBLE PRECISION" then
    if t = "INTEGER" then some ⟨true, "::INTEGER", true,
      "Converting DOUBLE PRECISION to INTEGER will truncate decimal places"⟩
    else if t = "BIGINT" then some ⟨true, "::BIGINT", true,
      "Converting DOUBLE PRECISION to BIGINT will truncate decimal places"⟩
    else if t = "TEXT" then some ⟨true, "::TEXT", false, ""⟩
    else none
  else if s = "BOOLEAN" then
    if t = "TEXT" then some ⟨true, "::TEXT", false, ""⟩
    else if t = "INTEGER" then some ⟨true, "CASE WHEN %s THEN 1 ELSE 0 END", false,
      "Converting BOOLEAN to INTEGER: true = 1, false = 0"⟩
    else none
  else if s = "TIMESTAMP" then
    if t = "TEXT" then some ⟨true, "::TEXT", false, ""⟩ else none
  else if s = "JSONB" then
    if t = "TEXT" then some ⟨true, "::TEXT", false, ""⟩ else none
  else none

/-- CanCastType: whether a type can be cast from source to target, with the
cast expression fragment, the risk flag and a warning message. -/
def CanCastType (sourceType targetType : String) : TypeCastResult :=
  let sourcePG := GetPostgreSQLType sourceType
  let targetPG := GetPostgreSQLType targetType
  if sourcePG = targetPG then ⟨true, "", false, ""⟩
  else
    match lookupCastRule sourcePG targetPG with
    | some r => r
    | none => ⟨false, "", false,
        "No automatic casting available from " ++ sourcePG ++ " to " ++ targetPG ++
        ". Manual SQL migration required."⟩

/-! ### Schema differ (diff.go). -/

structure FieldChange where
  ModelName : String
  Field : SchemaMgr.Field
  CurrentField : SchemaMgr.Field
  Typ : String
deriving Repr, DecidableEq

structure SchemaDiff where
  ModelsAdded : List Model
  ModelsRemoved : List Model
  EnumsAdded : List Enum
  EnumsRemoved : List Enum
  FieldsAdded : List FieldChange
  FieldsRemoved : List FieldChange
  FieldsModified : List FieldChange
deriving Repr, DecidableEq

/-- Stands in for the Go nil pointer in a FieldChange whose CurrentField is
not set (added/removed entries never read it). -/
def nilField : Field := ⟨"", "", "", [], false, false⟩

/-- NormalizeTypeForComparison: converts both PostgreSQL and Prisma types to
a common format (the attributes argument is unused, as in the source). -/
def NormalizeTypeForComparison (fieldType : String)
    (_attributes : List FieldAttribute) : String :=
  if fieldType = "TEXT" then "String"
  else if fieldType = "INTEGER" then "Int"
  else if fieldType = "BIGINT" then "BigInt"
  else if fieldType = "SERIAL" then "Int"
  else if fieldType = "TIMESTAMP" then "DateTime"
  else if fieldType = "BOOLEAN" then "Boolean"
  else if fieldType = "DOUBLE PRECISION" then "Float"
  else if fieldType = "FLOAT" then "Float"
  else if fieldType = "JSONB" then "Json"
  else if fieldType = "JSON" then "Json"
  else if fieldType = "NUMERIC" then "Decimal"
  else if startsWithStr fieldType "DECIMAL(" then "Decimal"
  else if fieldType = "Decimal" then "Decimal"
  else fieldType

/-- The first db.-prefixed attribute translated to a SQL type, when it is a
recognized parameterized override (the attribute scan of GetSQLTypeForField). -/
def dbAttrSQLType : List FieldAttribute → Option String
  | [] => none
  | attr :: rest =>
    if startsWithStr attr.Name "db." then
      let dbType := dropLead attr.Name "db."
      if dbType = "VarChar" && attr.Args.length > 0 then
        some ("VARCHAR(" ++ attr.Args.headD "" ++ ")")
      else if dbType = "Text" then some "TEXT"
      else if dbType = "Decimal" && attr.Args.length ≥ 2 then
        some ("DECIMAL(" ++ attr.Args.headD "" ++ "," ++ (attr.Args.drop 1).headD "" ++ ")")
      else dbAttrSQLType rest
    else dbAttrSQLType rest

/-- GetSQLTypeForField: the SQL type for a field, considering db attributes. -/
def GetSQLTypeForField (field : Field) : String :=
  match dbAttrSQLType field.Attributes with
  | some t => t
  | none =>
    let upperType := toUpperStr field.Typ
    if startsWithStr upperType "DECIMAL(" then upperType
    else if upperType = "TEXT" then "TEXT"
    else if upperType = "INTEGER" then "INTEGER"
    else if upperType = "BIGINT" then "BIGINT"
    else if upperType = "SERIAL" then "INTEGER"
    else if upperType = "NUMERIC" then "NUMERIC"
    else if upperType = "TIMESTAMP" then "TIMESTAMP"
    else if upperType = "BOOLEAN" then "BOOLEAN"
    else if field.Typ = "String" then "TEXT"
    else if field.Typ = "Int" then "INTEGER"
    else if field.Typ = "BigInt" then "BIGINT"
    else if field.Typ = "Float" then "DOUBLE PRECISION"
    else if field.Typ = "Decimal" then "NUMERIC"
    else if field.Typ = "Boolean" then "BOOLEAN"
    else if field.Typ = "DateTime" then "TIMESTAMP"
    else if field.Typ = "Json" then "JSONB"
    else toUpperStr field.Typ

/-- fieldsEqual: SQL type, optionality and array-ness all agree. -/
def fieldsEqual (current target : Field) : Bool :=
  GetSQLTypeForField current = GetSQLTypeForField target &&
  current.IsOptional = target.IsOptional &&
  current.IsArray = target.IsArray

/-- Go map indexing on an association list. -/
def lookupA : List (String × α) → String → Option α
  | [], _ => none
  | (k, v) :: t, k' => if k = k' then some v else lookupA t k'

/-- Go map assignment on an association list: replace the entry for the key
if present, else append. -/
def insertAssoc : List (String × α) → String → α → List (String × α)
  | [], k, v => [(k, v)]
  | (k', v') :: t, k, v =>
    if k' = k then (k, v) :: t else (k', v') :: insertAssoc t k v

/-- The models map keyed by TableName. -/
def buildModelMap (ms : List Model) : List (String × Model) :=
  ms.foldl (fun acc m => insertAssoc acc m.TableName m) []

/-- The fields map keyed by ColumnName. -/
def buildFieldMap (fs : List Field) : List (String × Field) :=
  fs.foldl (fun acc f => insertAssoc acc f.ColumnName f) []

/-- The field-level part of DiffSchemas for one table present in both
schemas: fields added, removed and modified. -/
def diffFieldsOfModel (cModel tModel : Model) :
    List FieldChange × List FieldChange × List FieldChange :=
  let currentFieldMap := buildFieldMap cModel.Fields
  let targetFieldMap := buildFieldMap tModel.Fields
  let added := (targetFieldMap.filter
      (fun p => (lookupA currentFieldMap p.1).isNone)).map
      (fun p => ⟨tModel.TableName, p.2, nilField, "added"⟩)
  let removed := (currentFieldMap.filter
      (fun p => (lookupA targetFieldMap p.1).isNone)).map
      (fun p => ⟨cModel.TableName, p.2, nilField, "removed"⟩)
  let modified := (targetFieldMap.filterMap
      (fun p => match lookupA currentFieldMap p.1 with
        | some cField =>
          if fieldsEqual cField p.2 then none
          else some (⟨tModel.TableName, p.2, cField, "modified"⟩ : FieldChange)
        | none => none))
  (added, removed, modified)

/-- DiffSchemas: the structural difference between the current and target
schemas, keyed by TableName for models and by ColumnName for fields. -/
def DiffSchemas (current target : Schema) : SchemaDiff :=
  let currentModelMap := buildModelMap current.Models
  let targetModelMap := buildModelMap target.Models
  let modelsAdded := (targetModelMap.filter
      (fun p => (lookupA currentModelMap p.1).isNone)).map Prod.snd
  let modelsRemoved := (currentModelMap.filter
      (fun p => (lookupA targetModelMap p.1).isNone)).map Prod.snd
  let fieldDiffs := targetModelMap.filterMap
      (fun p => match lookupA currentModelMap p.1 with
        | some cModel => some (diffFieldsOfModel cModel p.2)
        | none => none)
  let fieldsAdded := fieldDiffs.foldr (fun d acc => d.1 ++ acc) []
  let fieldsRemoved := fieldDiffs.foldr (fun d acc => d.2.1 ++ acc) []
  let fieldsModified := fieldDiffs.foldr (fun d acc => d.2.2 ++ acc) []
  let currentEnumMap := current.Enums.foldl
      (fun acc e => insertAssoc acc e.Name e) []
  let targetEnumMap := target.Enums.foldl
      (fun acc e => insertAssoc acc e.Name e) []
  let enumsAdded := (targetEnumMap.filter
      (fun p => (lookupA currentEnumMap p.1).isNone)).map Prod.snd
  let enumsRemoved := (currentEnumMap.filter
      (fun p => (lookupA targetEnumMap p.1).isNone)).map Prod.snd
  ⟨modelsAdded, modelsRemoved, enumsAdded, enumsRemoved,
   fieldsAdded, fieldsRemoved, fieldsModified⟩

/-! ### Prisma schema text parser, attribute handling (parser_prisma). -/

/-- One step of splitComplexArgs: the accumulated argument list, the
current argument being built (in reverse), and the bracket depth. -/
def scaStep (st : List String × List Char × Int) (c : Char) :
    List String × List Char × Int :=
  let (args, current, depth) := st
  if c = '[' then (args, c :: current, depth + 1)
  else if c = ']' then (args, c :: current, depth - 1)
  else if c = ',' && depth = 0 then
    if current.length > 0 then (args ++ [String.mk current.reverse], [], depth)
    else (args, current, depth)
  else (args, c :: current, depth)

/-- splitComplexArgs: split an attribute argument string on commas that are
outside any bracket list. -/
def splitComplexArgs (argsStr : String) : List String :=
  let (args, current, _) := argsStr.toList.foldl scaStep ([], [], (0 : Int))
  if current.length > 0 then args ++ [String.mk current.reverse] else args

/-- parseFieldAttribute: a field-level attribute token, bracket-aware
splitting applied when the argument string contains a colon. -/
def parseFieldAttribute (token : String) : FieldAttribute :=
  let token := dropLead token "@"
  match splitAtFirstChar token '(' with
  | none => ⟨token, []⟩
  | some (name, afterParen) =>
    let argsStr := trimSuffix1 afterParen ")"
    if containsSub argsStr ":" then
      ⟨name, (splitComplexArgs argsStr).map trimWS⟩
    else
      ⟨name, (splitOnStr argsStr (Char.ofNat 44)).map trimWS⟩

/-- parseModelAttribute: a model-level (double-at) attribute line; the
argument string is split on every comma. -/
def parseModelAttribute (line : String) : ModelAttribute :=
  let l := trimWS (dropLead line "@@")
  match splitAtFirstChar l '(' with
  | none => ⟨l, []⟩
  | some (name, afterParen) =>
    let argsStr := trimSuffix1 afterParen ")"
    ⟨name, (splitOnStr argsStr (Char.ofNat 44)).map trimWS⟩

/-! ### SQL migration replay parser (parser_migrations / sql_parser.go). -/

/-- extractSQLType (parser_migrations): the SQL type from a column
definition, keeping a parenthesized parameter list when present. -/
def extractSQLType (columnDef : String) : String :=
  let columnDef := trimWS columnDef
  if containsSub columnDef "(" && containsSub columnDef ")" then
    match charIdx columnDef.toList '(', charIdx columnDef.toList ')' with
    | some parenStart, some parenEnd =>
      if parenStart > 0 && parenEnd > parenStart then
        String.mk (columnDef.toList.take (parenEnd + 1))
      else (fieldsOf columnDef).headD columnDef
    | _, _ => (fieldsOf columnDef).headD columnDef
  else (fieldsOf columnDef).headD columnDef

/-- The field reconstructed by the migration replayer for a column (CREATE
TABLE body line or ADD COLUMN tail): nullable unless the definition carries
NOT NULL or PRIMARY KEY. -/
def mkReplayedField (columnName columnDef : String) : Field :=
  let columnDefUpper := toUpperStr columnDef
  { Name := columnName
    ColumnName := columnName
    Typ := extractSQLType columnDef
    Attributes := []
    IsOptional := !containsSub columnDefUpper "NOT NULL" &&
                  !containsSub columnDefUpper "PRIMARY KEY"
    IsArray := false }

/-- ColumnDefinition (sql_parser.go). -/
structure ColumnDefinition where
  Name : String
  Typ : String
  NotNull : Bool
  Default : String
  PrimaryKey : Bool
  AutoIncrement : Bool
deriving Repr, DecidableEq

/-- extractTypeFromParts: the type token, consuming further tokens while an
opened parenthesis is not yet closed, then lowercased with inner spaces
removed. -/
def extractTypeFromParts (parts : List String) : String :=
  match parts with
  | [] => ""
  | t0 :: rest =>
    let typeStr :=
      if containsSub t0 "(" && !containsSub t0 ")" then
        joinUntilClose t0 rest
      else t0
    String.mk (((toLowerStr typeStr).toList.filter (· ≠ ' ')))
where
  joinUntilClose (acc : String) : List String → String
    | [] => acc
    | p :: ps =>
      if containsSub p ")" then acc ++ " " ++ p
      else joinUntilClose (acc ++ " " ++ p) ps

/-- parseColumnDefinition (sql_parser.go): one column definition string. -/
def parseColumnDefinition (def_ : String) : ColumnDefinition :=
  let parts := fieldsOf def_
  if parts.length < 2 then ⟨"", "", false, "", false, false⟩
  else
    let defUpper := toUpperStr def_
    { Name := toLowerStr (parts.headD "")
      Typ := extractTypeFromParts (parts.drop 1)
      NotNull := containsSub defUpper "NOT NULL"
      Default := ""
      PrimaryKey := containsSub defUpper "PRIMARY KEY"
      AutoIncrement := containsSub defUpper "SERIAL" ||
                       containsSub defUpper "AUTO_INCREMENT" }

/-- The field built when a parsed column definition is applied to the
schema (CreateTableStatement.Apply / AddColumnOperation.Apply). -/
def fieldOfColumn (col : ColumnDefinition) : Field :=
  { Name := col.Name
    ColumnName := col.Name
    Typ := col.Typ
    Attributes := []
    IsOptional := !col.NotNull && !col.PrimaryKey
    IsArray := false }

/-! ### Migration SQL generator (generate.go). -/

/-- The single-quote character, used in quoting literals. -/
def sq : Char := Char.ofNat 39

/-- parseDefaultValue: lower a Prisma default value to SQL. -/
def parseDefaultValue (val typ : String) : String :=
  let v := trimChars val ['"']
  if typ = "String" then String.mk [sq] ++ v ++ String.mk [sq]
  else if typ = "DateTime" then
    if v = "now()" then "CURRENT_TIMESTAMP" else v
  else if typ = "Boolean" then
    if v = "true" then "TRUE" else "FALSE"
  else if v = "autoincrement()" then "" else v

/-- The db.-attribute scan of goTypeToSQLType: only VarChar-with-length and
Text are recognized here. -/
def dbAttrSQLTypeGen : List FieldAttribute → Option String
  | [] => none
  | attr :: rest =>
    if startsWithStr attr.Name "db." then
      let dbType := dropLead attr.Name "db."
      if dbType = "VarChar" && attr.Args.length > 0 then
        some ("VARCHAR(" ++ attr.Args.headD "" ++ ")")
      else if dbType = "Text" then some "TEXT"
      else dbAttrSQLTypeGen rest
    else dbAttrSQLTypeGen rest

/-- goTypeToSQLType: the column type rendered in generated SQL. -/
def goTypeToSQLType (t : String) (isAutoIncrement : Bool)
    (attributes : List FieldAttribute) : String :=
  match dbAttrSQLTypeGen attributes with
  | some s => s
  | none =>
    if t = "Int" then (if isAutoIncrement then "SERIAL" else "INTEGER")
    else if t = "BigInt" then "BIGINT"
    else if t = "String" then "TEXT"
    else if t = "DateTime" then "TIMESTAMP"
    else if t = "Boolean" then "BOOLEAN"
    else if t = "Float" then "FLOAT"
    else t

/-- generateEnumSQL: CREATE TYPE ... AS ENUM with quoted values. -/
def generateEnumSQL (e : Enum) : String :=
  "CREATE TYPE " ++ e.Name ++ " AS ENUM (" ++
  joinSep ", " (e.Values.map
    (fun v => String.mk [sq] ++ v ++ String.mk [sq])) ++ ");"

def wrapGooseStatement (sql : String) : String :=
  "-- +goose StatementBegin\n" ++ sql ++ "\n-- +goose StatementEnd"

def wrapGooseStatementWithWarning (sql warning : String) : String :=
  "-- +goose StatementBegin\n-- WARNING: " ++ warning ++ "\n" ++ sql ++
  "\n-- +goose StatementEnd"

def hasRelationAttr (f : Field) : Bool :=
  f.Attributes.any (fun attr => attr.Name = "relation")

/-- The per-field flags collected by scanning a field's attributes during
column generation. -/
structure ColGenFlags where
  isPrimary : Bool
  isUnique : Bool
  defaultVal : String
  isAutoIncrement : Bool
deriving Repr, DecidableEq

def colGenStep (fTyp : String) (st : ColGenFlags) (attr : FieldAttribute) :
    ColGenFlags :=
  if attr.Name = "id" then { st with isPrimary := true }
  else if attr.Name = "unique" then { st with isUnique := true }
  else if attr.Name = "default" then
    match attr.Args with
    | [] => st
    | a0 :: _ =>
      if a0 = "autoincrement()" && fTyp = "Int" then
        { st with isAutoIncrement := true }
      else { st with defaultVal := parseDefaultValue a0 fTyp }
  else st

def fieldGenFlags (f : Field) : ColGenFlags :=
  f.Attributes.foldl (colGenStep f.Typ) ⟨false, false, "", false⟩

/-- The column definition text for a field, minus the SERIAL PRIMARY KEY
special case, shared by table creation and ADD COLUMN. -/
def plainColumnText (f : Field) (fl : ColGenFlags) : String :=
  f.ColumnName ++ " " ++ goTypeToSQLType f.Typ fl.isAutoIncrement f.Attributes ++
  (if fl.defaultVal ≠ "" then " DEFAULT " ++ fl.defaultVal else "") ++
  (if !f.IsOptional then " NOT NULL" else "")

/-- generateAddColumnSQL: ALTER TABLE ... ADD COLUMN (empty for
unmaterialized relation fields), plus a unique index when flagged. -/
def generateAddColumnSQL (fc : FieldChange) : String :=
  let f := fc.Field
  if f.IsArray then ""
  else if hasRelationAttr f then ""
  else
    let fl := fieldGenFlags f
    let col :=
      if fl.isPrimary && fl.isAutoIncrement then
        f.ColumnName ++ " SERIAL PRIMARY KEY"
      else plainColumnText f fl
    let stmt := "ALTER TABLE " ++ fc.ModelName ++ " ADD COLUMN " ++ col ++ ";"
    if fl.isUnique then
      stmt ++ "\nCREATE UNIQUE INDEX idx_uniq_" ++ fc.ModelName ++ "_" ++
      f.ColumnName ++ " ON " ++ fc.ModelName ++ "(" ++ f.ColumnName ++ ");"
    else stmt

/-- generateDropColumnSQL (empty for unmaterialized relation fields). -/
def generateDropColumnSQL (fc : FieldChange) : String :=
  let f := fc.Field
  if f.IsArray then ""
  else if hasRelationAttr f then ""
  else "ALTER TABLE " ++ fc.ModelName ++ " DROP COLUMN IF EXISTS " ++
       f.ColumnName ++ ";"

/-- parseIndexFields: map index attribute arguments (possibly carrying
bracket characters) to the column names of the matching fields. -/
def parseIndexFields : List String → List Field → List String
  | [], _ => []
  | a :: rest, fields =>
    let s := trimChars a ['[', ']', ' ', '"', sq]
    if s = "" then parseIndexFields rest fields
    else ((fields.filter (fun f => f.Name = s)).map (fun f => f.ColumnName)) ++
         parseIndexFields rest fields

/-- generateModifyColumnSQLWithWarning: the forward (up) statements for a
modified field, with the combined warning text. -/
def generateModifyColumnSQLWithWarning (fc : FieldChange) : String × String :=
  let currentField := fc.CurrentField
  let targetField := fc.Field
  if targetField.IsArray then ("", "")
  else if hasRelationAttr targetField then ("", "")
  else
    let cN := NormalizeTypeForComparison currentField.Typ currentField.Attributes
    let tN := NormalizeTypeForComparison targetField.Typ targetField.Attributes
    let typePart :=
      if cN ≠ tN then
        let newSQLType := goTypeToSQLType targetField.Typ false targetField.Attributes
        let castResult := CanCastType cN tN
        if castResult.CanCast then
          let stmt :=
            if castResult.CastExpression ≠ "" then
              "ALTER TABLE " ++ fc.ModelName ++ " ALTER COLUMN " ++
              targetField.ColumnName ++ " TYPE " ++ newSQLType ++ " USING " ++
              targetField.ColumnName ++ castResult.CastExpression ++ ";"
            else
              "ALTER TABLE " ++ fc.ModelName ++ " ALTER COLUMN " ++
              targetField.ColumnName ++ " TYPE " ++ newSQLType ++ ";"
          let warns :=
            if castResult.IsRisky || castResult.WarningMessage ≠ "" then
              ["RISKY CONVERSION: " ++ fc.ModelName ++ "." ++
               targetField.ColumnName ++ " from " ++ cN ++ " to " ++ tN ++
               " - " ++ castResult.WarningMessage ++
               ". This cannot be safely rolled back!"]
            else []
          ([stmt], warns)
        else
          (["-- ERROR: " ++ castResult.WarningMessage ++
            "\n-- Manual migration required for " ++ fc.ModelName ++ "." ++
            targetField.ColumnName],
           ["MANUAL INTERVENTION REQUIRED: " ++ castResult.WarningMessage])
      else ([], [])
    let nullPart :=
      if currentField.IsOptional ≠ targetField.IsOptional then
        if targetField.IsOptional then
          (["ALTER TABLE " ++ fc.ModelName ++ " ALTER COLUMN " ++
            targetField.ColumnName ++ " DROP NOT NULL;"], ([] : List String))
        else
          (["ALTER TABLE " ++ fc.ModelName ++ " ALTER COLUMN " ++
            targetField.ColumnName ++ " SET NOT NULL;"],
           ["RISKY: Making " ++ fc.ModelName ++ "." ++ targetField.ColumnName ++
            " NOT NULL - will fail if NULL values exist. Cannot be safely rolled back if data is modified!"])
      else ([], [])
    let stmts := typePart.1 ++ nullPart.1
    let warnings := typePart.2 ++ nullPart.2
    if stmts = [] then
      ("-- No changes detected for " ++ fc.ModelName ++ "." ++
       targetField.ColumnName, "")
    else
      (joinSep "\n" stmts,
       if warnings ≠ [] then joinSep " | " warnings else "")

/-- generateReverseModifyColumnSQL: the reverse (down) statements for a
modified field, with the reverse direction independently risk-checked. -/
def generateReverseModifyColumnSQL (fc : FieldChange) : String :=
  let currentField := fc.CurrentField
  let targetField := fc.Field
  if targetField.IsArray then ""
  else if hasRelationAttr targetField then ""
  else
    let cN := NormalizeTypeForComparison currentField.Typ currentField.Attributes
    let tN := NormalizeTypeForComparison targetField.Typ targetField.Attributes
    let typeStmts :=
      if cN ≠ tN then
        let originalSQLType := goTypeToSQLType currentField.Typ false currentField.Attributes
        let castResult := CanCastType tN cN
        if castResult.CanCast && !castResult.IsRisky then
          if castResult.CastExpression ≠ "" then
            ["ALTER TABLE " ++ fc.ModelName ++ " ALTER COLUMN " ++
             targetField.ColumnName ++ " TYPE " ++ originalSQLType ++
             " USING " ++ targetField.ColumnName ++ castResult.CastExpression ++ ";"]
          else
            ["ALTER TABLE " ++ fc.ModelName ++ " ALTER COLUMN " ++
             targetField.ColumnName ++ " TYPE " ++ originalSQLType ++ ";"]
        else if castResult.CanCast && castResult.IsRisky then
          ["-- WARNING: Risky type reversal from " ++ tN ++ " to " ++ cN ++
           "\n-- " ++ castResult.WarningMessage ++ "\nALTER TABLE " ++
           fc.ModelName ++ " ALTER COLUMN " ++ targetField.ColumnName ++
           " TYPE " ++ originalSQLType ++ " USING " ++ targetField.ColumnName ++
           castResult.CastExpression ++ ";"]
        else
          ["-- ERROR: Cannot automatically reverse type change for " ++
           fc.ModelName ++ "." ++ targetField.ColumnName ++ "\n-- From " ++
           tN ++ " back to " ++ cN ++ ": " ++ castResult.WarningMessage ++
           "\n-- Manual intervention required"]
      else []
    let nullStmts :=
      if currentField.IsOptional ≠ targetField.IsOptional then
        if currentField.IsOptional then
          ["ALTER TABLE " ++ fc.ModelName ++ " ALTER COLUMN " ++
           targetField.ColumnName ++ " DROP NOT NULL;"]
        else
          ["-- WARNING: Setting NOT NULL may fail if NULL values exist\nALTER TABLE " ++
           fc.ModelName ++ " ALTER COLUMN " ++ targetField.ColumnName ++
           " SET NOT NULL;"]
      else []
    let stmts := typeStmts ++ nullStmts
    if stmts = [] then
      "-- No reverse changes needed for " ++ fc.ModelName ++ "." ++
      targetField.ColumnName
    else joinSep "\n" stmts

/-- The per-table accumulators of the table-creation loop. -/
structure TableGenAcc where
  cols : List String
  pkCols : List String
  uniqueIndexes : List String
deriving Repr, DecidableEq

/-- The composite primary key named by the first model-level id attribute. -/
def compositePKOf (m : Model) : List String :=
  match m.Attributes.find? (fun attr => attr.Name = "id") with
  | some attr => attr.Args
  | none => []

/-- One field of the up-direction table-creation loop (skips unmaterialized
relation fields; SERIAL PRIMARY KEY only without a composite key). -/
def materializedColStep (m : Model) (compositePK : List String)
    (acc : TableGenAcc) (f : Field) : TableGenAcc :=
  if f.IsArray then acc
  else if hasRelationAttr f then acc
  else
    let fl := fieldGenFlags f
    let col :=
      if fl.isPrimary && fl.isAutoIncrement && compositePK.length = 0 then
        f.ColumnName ++ " SERIAL PRIMARY KEY"
      else plainColumnText f fl
    { cols := acc.cols ++ [col]
      pkCols :=
        if fl.isPrimary && !fl.isAutoIncrement then acc.pkCols ++ [f.ColumnName]
        else acc.pkCols
      uniqueIndexes :=
        if fl.isUnique then
          acc.uniqueIndexes ++
          ["CREATE UNIQUE INDEX idx_uniq_" ++ m.TableName ++ "_" ++
           f.ColumnName ++ " ON " ++ m.TableName ++ "(" ++ f.ColumnName ++ ");"]
        else acc.uniqueIndexes }

/-- One relation argument of the foreign-key scan: updates the referenced
column, the on-delete action, or the resolved local foreign-key field. -/
def fkArgStep (m : Model) (st : String × String × Option Field)
    (relationArg : String) : String × String × Option Field :=
  let relationArg := trimWS relationArg
  if startsWithStr relationArg "fields:" then
    match sliceBetween relationArg '[' ']' with
    | some inner =>
      let fieldName := trimWS inner
      match m.Fields.find? (fun f => f.Name = fieldName) with
      | some fld => (st.1, st.2.1, some fld)
      | none => st
    | none => st
  else if startsWithStr relationArg "references:" then
    match sliceBetween relationArg '[' ']' with
    | some inner => (trimWS inner, st.2.1, st.2.2)
    | none => st
  else if startsWithStr relationArg "onDelete:" then
    match (splitOnStr relationArg (Char.ofNat 58)).drop 1 with
    | p1 :: _ => (st.1, trimWS p1, st.2.2)
    | [] => st
  else st

/-- The foreign-key constraint clause for a relation-attributed field: the
referenced table is the lowercased, naively pluralized field type. -/
def fkOfField (m : Model) (f : Field) : Option String :=
  match f.Attributes.find? (fun attr => attr.Name = "relation") with
  | none => none
  | some attr =>
    let rt := toLowerStr f.Typ
    let referencedTable := if !(endsWithStr rt "s") then rt ++ "s" else rt
    let st := attr.Args.foldl (fkArgStep m) ("id", "", none)
    match st.2.2 with
    | some fkf =>
      some ("CONSTRAINT fk_" ++ m.TableName ++ "_" ++ fkf.ColumnName ++
            " FOREIGN KEY (" ++ fkf.ColumnName ++ ") REFERENCES " ++
            referencedTable ++ "(" ++ st.1 ++ ")" ++
            (if st.2.1 ≠ "" then " ON DELETE " ++ toUpperStr st.2.1 else ""))
    | none => none

/-- One model-level attribute of the table-level unique/index loop. -/
def tableIdxStep (m : Model) (st : List String × List String)
    (attr : ModelAttribute) : List String × List String :=
  if attr.Name = "unique" then
    if attr.Args.length > 0 then
      let idxCols := parseIndexFields attr.Args m.Fields
      (st.1 ++ ["CREATE UNIQUE INDEX idx_uniq_" ++ m.TableName ++ "_" ++
                joinSep "_" idxCols ++ " ON " ++ m.TableName ++
                "(" ++ joinSep ", " idxCols ++ ");"], st.2)
    else st
  else if attr.Name = "index" then
    if attr.Args.length > 0 then
      let idxCols := parseIndexFields attr.Args m.Fields
      (st.1, st.2 ++ ["CREATE INDEX idx_" ++ m.TableName ++ "_" ++
                      joinSep "_" idxCols ++ " ON " ++ m.TableName ++
                      "(" ++ joinSep ", " idxCols ++ ");"])
    else st
  else st

/-- The CREATE TABLE statement, unique indexes and non-unique indexes for an
added model (the up direction, with composite keys and foreign keys). -/
def createTableArtifacts (m : Model) : String × List String × List String :=
  let compositePK := compositePKOf m
  let acc := m.Fields.foldl (materializedColStep m compositePK) ⟨[], [], []⟩
  let foreignKeys := m.Fields.filterMap (fkOfField m)
  let idxPair := m.Attributes.foldl (tableIdxStep m) (acc.uniqueIndexes, [])
  let compositePKCols := compositePK.filterMap
    (fun fieldName =>
      (m.Fields.find? (fun f => f.Name = trimChars fieldName ['[', ']', ' ', '"', sq])).map
      (fun f => f.ColumnName))
  let cols1 :=
    if compositePK.length > 0 then
      if compositePKCols.length > 0 then
        acc.cols ++ ["PRIMARY KEY (" ++ joinSep ", " compositePKCols ++ ")"]
      else acc.cols
    else if acc.pkCols.length > 0 then
      acc.cols ++ ["PRIMARY KEY (" ++ joinSep ", " acc.pkCols ++ ")"]
    else acc.cols
  let cols2 := cols1 ++ foreignKeys
  ("CREATE TABLE " ++ m.TableName ++ " (\n  " ++
   joinSep ",\n  " cols2 ++ "\n);", idxPair.1, idxPair.2)

/-- GenerateMigrationSQL: the up migration, statement blocks joined by
blank lines, accumulated in the source's append order. -/
def GenerateMigrationSQL (diff : SchemaDiff) : String :=
  let s1 := diff.EnumsAdded.foldl
    (fun acc e => acc ++ [wrapGooseStatement (generateEnumSQL e)]) []
  let s2 := diff.FieldsAdded.foldl
    (fun acc fc =>
      let stmt := generateAddColumnSQL fc
      if stmt ≠ "" then acc ++ [wrapGooseStatement stmt] else acc) s1
  let s3 := diff.FieldsRemoved.foldl
    (fun acc fc =>
      let stmt := generateDropColumnSQL fc
      if stmt ≠ "" then
        acc ++ [wrapGooseStatementWithWarning stmt
          ("IRREVERSIBLE: Dropping column " ++ fc.ModelName ++ "." ++
           fc.Field.ColumnName ++ " - all data in this column will be lost!")]
      else acc) s2
  let s4 := diff.FieldsModified.foldl
    (fun acc fc =>
      let r := generateModifyColumnSQLWithWarning fc
      if r.1 ≠ "" then
        if r.2 ≠ "" then acc ++ [wrapGooseStatementWithWarning r.1 r.2]
        else acc ++ [wrapGooseStatement r.1]
      else acc) s3
  let s5 := diff.ModelsAdded.foldl
    (fun acc m =>
      let a := createTableArtifacts m
      (acc ++ [wrapGooseStatement a.1]) ++ a.2.1.map wrapGooseStatement ++
      a.2.2.map wrapGooseStatement) s4
  let s6 := diff.ModelsRemoved.foldl
    (fun acc m =>
      acc ++ [wrapGooseStatementWithWarning
        ("DROP TABLE IF EXISTS " ++ m.TableName ++ ";")
        ("IRREVERSIBLE: Dropping table " ++ m.TableName ++
         " - all data will be lost!")]) s5
  joinSep "\n\n" s6

/-- One field of the down-direction table-recreation loop (no composite-key
handling and no relation skipping, as in the source). -/
def downColStep (m : Model) (acc : TableGenAcc) (f : Field) : TableGenAcc :=
  let fl := fieldGenFlags f
  let col :=
    if fl.isPrimary && fl.isAutoIncrement then
      f.ColumnName ++ " SERIAL PRIMARY KEY"
    else plainColumnText f fl
  { cols := acc.cols ++ [col]
    pkCols :=
      if fl.isPrimary && !fl.isAutoIncrement then acc.pkCols ++ [f.ColumnName]
      else acc.pkCols
    uniqueIndexes :=
      if fl.isUnique then
        acc.uniqueIndexes ++
        ["CREATE UNIQUE INDEX idx_uniq_" ++ m.TableName ++ "_" ++
         f.ColumnName ++ " ON " ++ m.TableName ++ "(" ++ f.ColumnName ++ ");"]
      else acc.uniqueIndexes }

/-- The table recreated in the down migration for a removed model. -/
def downTableArtifacts (m : Model) : String × List String × List String :=
  let acc := m.Fields.foldl (downColStep m) ⟨[], [], []⟩
  let idxPair := m.Attributes.foldl (tableIdxStep m) (acc.uniqueIndexes, [])
  let cols1 :=
    if acc.pkCols.length > 0 then
      acc.cols ++ ["PRIMARY KEY (" ++ joinSep ", " acc.pkCols ++ ")"]
    else acc.cols
  ("CREATE TABLE " ++ m.TableName ++ " (\n  " ++
   joinSep ",\n  " cols1 ++ "\n);", idxPair.1, idxPair.2)

/-- GenerateDownMigrationSQL: the down migration in reverse dependency
order. -/
def GenerateDownMigrationSQL (diff : SchemaDiff) : String :=
  let s1 := diff.ModelsAdded.foldl
    (fun acc m => acc ++ [wrapGooseStatement
      ("DROP TABLE IF EXISTS " ++ m.TableName ++ ";")]) []
  let s2 := diff.EnumsAdded.foldl
    (fun acc e => acc ++ [wrapGooseStatement
      ("DROP TYPE IF EXISTS " ++ e.Name ++ ";")]) s1
  let s3 := diff.FieldsAdded.foldl
    (fun acc fc =>
      let stmt := generateDropColumnSQL fc
      if stmt ≠ "" then acc ++ [wrapGooseStatement stmt] else acc) s2
  let s4 := diff.FieldsRemoved.foldl
    (fun acc fc =>
      let stmt := generateAddColumnSQL fc
      if stmt ≠ "" then acc ++ [wrapGooseStatement stmt] else acc) s3
  let s5 := diff.FieldsModified.foldl
    (fun acc fc =>
      let stmt := generateReverseModifyColumnSQL fc
      if stmt ≠ "" then acc ++ [wrapGooseStatement stmt] else acc) s4
  let s6 := diff.EnumsRemoved.foldl
    (fun acc e => acc ++ [wrapGooseStatement (generateEnumSQL e)]) s5
  let s7 := diff.ModelsRemoved.foldl
    (fun acc m =>
      let a := downTableArtifacts m
      (acc ++ [wrapGooseStatement a.1]) ++ a.2.1.map wrapGooseStatement ++
      a.2.2.map wrapGooseStatement) s6
  joinSep "\n\n" s7

/-! ### The generate command's decision (cmd/generate.go). -/

inductive GenOutcome where
  | reportNoChanges
  | writeMigration (up down : String)
deriving Repr, DecidableEq

/-- The no-changes test of the generate command: removal-only collections
(models or enums removed) are not consulted. -/
def hasNoChanges (diff : SchemaDiff) : Bool :=
  diff.ModelsAdded.isEmpty && diff.EnumsAdded.isEmpty &&
  diff.FieldsAdded.isEmpty && diff.FieldsRemoved.isEmpty &&
  diff.FieldsModified.isEmpty

/-- The generate command after diffing: either report that nothing changed
(writing no file) or compose and write the up/down migration file. -/
def generateCommandOutcome (diff : SchemaDiff) : GenOutcome :=
  if hasNoChanges diff then .reportNoChanges
  else .writeMigration (GenerateMigrationSQL diff) (GenerateDownMigrationSQL diff)

/-! ### Lemmas about the association-list model of Go maps. -/

theorem lookupA_insertAssoc_self (l : List (String × α)) (k : String) (v : α) :
    lookupA (insertAssoc l k v) k = some v := by
  induction l with
  | nil => simp [insertAssoc, lookupA]
  | cons p t ih =>
    by_cases hpk : p.1 = k
    · simp [insertAssoc, hpk, lookupA]
    · simp [insertAssoc, hpk, lookupA, ih]

theorem lookupA_insertAssoc_ne (l : List (String × α)) (k : String) (v : α)
    (x : String) (h : k ≠ x) :
    lookupA (insertAssoc l k v) x = lookupA l x := by
  induction l with
  | nil => simp [insertAssoc, lookupA, h]
  | cons p t ih =>
    by_cases hpk : p.1 = k
    · simp only [insertAssoc, hpk, if_true]
      simp [lookupA, h, hpk]
    · simp [insertAssoc, hpk, lookupA, ih]

theorem lookupA_eq_some_mem (l : List (String × α)) (k : String) (v : α)
    (h : lookupA l k = some v) : (k, v) ∈ l := by
  induction l with
  | nil => simp [lookupA] at h
  | cons p t ih =>
    obtain ⟨a, b⟩ := p
    by_cases hpk : a = k
    · rw [show lookupA ((a, b) :: t) k = some b from by simp [lookupA, hpk]] at h
      have hb : b = v := by injection h
      have hkv : (k, v) = (a, b) := by rw [hpk, hb]
      rw [hkv]
      exact List.mem_cons_self _ _
    · rw [show lookupA ((a, b) :: t) k = lookupA t k from by simp [lookupA, hpk]] at h
      exact List.mem_cons_of_mem _ (ih h)

theorem mem_insertAssoc (l : List (String × α)) (k : String) (v : α)
    (p : String × α) (h : p ∈ insertAssoc l k v) : p = (k, v) ∨ p ∈ l := by
  induction l with
  | nil => simpa [insertAssoc] using h
  | cons q t ih =>
    obtain ⟨a, b⟩ := q
    by_cases hqk : a = k
    · rw [show insertAssoc ((a, b) :: t) k v = (k, v) :: t from by
        simp [insertAssoc, hqk]] at h
      rcases List.mem_cons.mp h with h | h
      · exact Or.inl h
      · exact Or.inr (List.mem_cons_of_mem _ h)
    · rw [show insertAssoc ((a, b) :: t) k v = (a, b) :: insertAssoc t k v from by
        simp [insertAssoc, hqk]] at h
      rcases List.mem_cons.mp h with h | h
      · exact Or.inr (by simp [h])
      · rcases ih h with h | h
        · exact Or.inl h
        · exact Or.inr (List.mem_cons_of_mem _ h)

theorem lookupA_modelFold_none (ms : List Model) (acc : List (String × Model))
    (k : String) :
    lookupA (ms.foldl (fun a m => insertAssoc a m.TableName m) acc) k = none ↔
      lookupA acc k = none ∧ k ∉ ms.map Model.TableName := by
  induction ms generalizing acc with
  | nil => simp
  | cons m t ih =>
    simp only [List.foldl_cons, List.map_cons, List.mem_cons]
    rw [ih]
    by_cases hk : m.TableName = k
    · subst hk
      rw [lookupA_insertAssoc_self]
      simp
    · rw [lookupA_insertAssoc_ne _ _ _ _ hk]
      have : ¬ (k = m.TableName) := fun hc => hk hc.symm
      tauto

theorem buildModelMap_lookup_none (ms : List Model) (k : String) :
    lookupA (buildModelMap ms) k = none ↔ k ∉ ms.map Model.TableName := by
  unfold buildModelMap
  rw [lookupA_modelFold_none]
  simp [lookupA]

theorem modelFold_entry_inv (P : String × Model → Prop) (l : List Model) :
    ∀ (acc : List (String × Model)), (∀ p ∈ acc, P p) →
      (∀ m ∈ l, P (m.TableName, m)) →
      ∀ p ∈ l.foldl (fun a m => insertAssoc a m.TableName m) acc, P p := by
  induction l with
  | nil => intro acc hacc _ p hp; exact hacc p hp
  | cons m t ih =>
    intro acc hacc hl p hp
    refine ih _ ?_ (fun x hx => hl x (List.mem_cons_of_mem _ hx)) p hp
    intro q hq
    rcases mem_insertAssoc _ _ _ _ hq with h | h
    · rw [h]; exact hl m (List.mem_cons_self _ _)
    · exact hacc q h

theorem buildModelMap_entry (ms : List Model) :
    ∀ p ∈ buildModelMap ms, p.2.TableName = p.1 ∧ p.2 ∈ ms := by
  unfold buildModelMap
  exact modelFold_entry_inv (fun p => p.2.TableName = p.1 ∧ p.2 ∈ ms) ms []
    (by simp) (fun m hm => ⟨rfl, hm⟩)

/-- The TableNames collected from one side's model map restricted to keys
missing from the other side's map: membership is exactly presence in the
first schema and absence from the second. -/
theorem mem_missing_names (A B : List Model) (t : String) :
    t ∈ (((buildModelMap B).filter
      (fun p => (lookupA (buildModelMap A) p.1).isNone)).map Prod.snd).map
        Model.TableName ↔
    t ∈ B.map Model.TableName ∧ t ∉ A.map Model.TableName := by
  rw [List.map_map]
  simp only [List.mem_map, List.mem_filter, Function.comp]
  constructor
  · rintro ⟨p, ⟨hp, hnone⟩, hname⟩
    obtain ⟨hkey, hmem⟩ := buildModelMap_entry B p hp
    have hpt : p.1 = t := by rw [← hkey]; exact hname
    constructor
    · exact ⟨p.2, hmem, hname⟩
    · intro hc
      rw [hpt] at hnone
      exact (buildModelMap_lookup_none A t).mp
        (Option.isNone_iff_eq_none.mp hnone) (List.mem_map.mpr hc)
  · rintro ⟨htB, htA⟩
    have hnone : lookupA (buildModelMap A) t = none :=
      (buildModelMap_lookup_none A t).mpr (fun hm => htA (List.mem_map.mp hm))
    have hsome : lookupA (buildModelMap B) t ≠ none := by
      intro hc
      exact (buildModelMap_lookup_none B t).mp hc (List.mem_map.mpr htB)
    obtain ⟨v, hv⟩ : ∃ v, lookupA (buildModelMap B) t = some v := by
      cases hlk : lookupA (buildModelMap B) t with
      | none => exact absurd hlk hsome
      | some v => exact ⟨v, rfl⟩
    have hmemB := lookupA_eq_some_mem _ _ _ hv
    have hinv := buildModelMap_entry B (t, v) hmemB
    refine ⟨(t, v), ⟨hmemB, ?_⟩, ?_⟩
    · simp [hnone]
    · exact hinv.1

/-! ### The statement blocks of the up migration, per section (the shapes
appended by GenerateMigrationSQL). -/

/-- The blocks contributed by each element, concatenated in order. -/
def flatBlocks (g : α → List String) : List α → List String
  | [] => []
  | x :: t => g x ++ flatBlocks g t

def enumAddBlock (e : Enum) : List String :=
  [wrapGooseStatement (generateEnumSQL e)]

def fieldAddBlock (fc : FieldChange) : List String :=
  let stmt := generateAddColumnSQL fc
  if stmt ≠ "" then [wrapGooseStatement stmt] else []

def fieldRemoveBlock (fc : FieldChange) : List String :=
  let stmt := generateDropColumnSQL fc
  if stmt ≠ "" then
    [wrapGooseStatementWithWarning stmt
      ("IRREVERSIBLE: Dropping column " ++ fc.ModelName ++ "." ++
       fc.Field.ColumnName ++ " - all data in this column will be lost!")]
  else []

def fieldModifyBlock (fc : FieldChange) : List String :=
  let r := generateModifyColumnSQLWithWarning fc
  if r.1 ≠ "" then
    if r.2 ≠ "" then [wrapGooseStatementWithWarning r.1 r.2]
    else [wrapGooseStatement r.1]
  else []

/-- A created table contributes its CREATE TABLE block first, then its
unique-index blocks, then its non-unique-index blocks. -/
def modelCreateBlocks (m : Model) : List String :=
  let a := createTableArtifacts m
  [wrapGooseStatement a.1] ++ a.2.1.map wrapGooseStatement ++
  a.2.2.map wrapGooseStatement

def modelDropBlock (m : Model) : List String :=
  [wrapGooseStatementWithWarning ("DROP TABLE IF EXISTS " ++ m.TableName ++ ";")
    ("IRREVERSIBLE: Dropping table " ++ m.TableName ++
     " - all data will be lost!")]

theorem foldl_append_flatBlocks (g : α → List String)
    (step : List String → α → List String)
    (hstep : ∀ acc x, step acc x = acc ++ g x) :
    ∀ (l : List α) (acc : List String),
      l.foldl step acc = acc ++ flatBlocks g l := by
  intro l
  induction l with
  | nil => intro acc; simp [flatBlocks]
  | cons x t ih =>
    intro acc
    simp only [List.foldl_cons, flatBlocks]
    rw [hstep, ih, List.append_assoc]

/-! ### Claim theorems. -/

/-- C1 (counterexample): for the modified field status TEXT → Int, the down
migration's statement casts back with status::TEXT but carries no risk
flag: the reverse cast INTEGER → TEXT is safe in the cast matrix, so the
claim's "down direction also flagged as risky" is false on this input. -/
theorem text_to_int_down_unflagged_cex :
    generateReverseModifyColumnSQL
      ⟨"users", ⟨"status", "status", "Int", [], false, false⟩,
       ⟨"status", "status", "TEXT", [], false, false⟩, "modified"⟩ =
      "ALTER TABLE users ALTER COLUMN status TYPE TEXT USING status::TEXT;" ∧
    containsSub
      (GenerateDownMigrationSQL
        ⟨[], [], [], [], [], [],
         [⟨"users", ⟨"status", "status", "Int", [], false, false⟩,
           ⟨"status", "status", "TEXT", [], false, false⟩, "modified"⟩]⟩)
      "WARNING" = false ∧
    (CanCastType "Int" "String").IsRisky = false := by
  refine ⟨by decide, by decide, by decide⟩

/-- C1 (amended): for the modified field status TEXT → Int the generator
surfaces a risky-cast warning, the up statement carries the USING
status::INTEGER cast, and the down migration casts back with
status::TEXT — without a risk flag, because INTEGER → TEXT is safe. -/
theorem text_to_int_modify_scenario :
    generateModifyColumnSQLWithWarning
      ⟨"users", ⟨"status", "status", "Int", [], false, false⟩,
       ⟨"status", "status", "TEXT", [], false, false⟩, "modified"⟩ =
      ("ALTER TABLE users ALTER COLUMN status TYPE INTEGER USING status::INTEGER;",
       "RISKY CONVERSION: users.status from String to Int - Converting TEXT to INTEGER may fail if text contains non-numeric values. This cannot be safely rolled back!") ∧
    generateReverseModifyColumnSQL
      ⟨"users", ⟨"status", "status", "Int", [], false, false⟩,
       ⟨"status", "status", "TEXT", [], false, false⟩, "modified"⟩ =
      "ALTER TABLE users ALTER COLUMN status TYPE TEXT USING status::TEXT;" := by
  refine ⟨by decide, by decide⟩

/-- C2: for every declarative type, mapping to the PostgreSQL type and then
normalizing agrees with normalizing the declarative type directly. -/
theorem normalize_after_mapType_eq (t : String) (attrs : List FieldAttribute) :
    NormalizeTypeForComparison (GetPostgreSQLType t) attrs =
      NormalizeTypeForComparison t attrs := by
  unfold GetPostgreSQLType
  split_ifs with h1 h2 h3 h4 h5 h6 h7 h8 <;> subst_vars <;> rfl

/-- C3: the TableNames of the models reported added by DiffSchemas A B are
exactly those reported removed by DiffSchemas B A, and vice versa. -/
theorem diffSchemas_added_removed_symm (A B : Schema) :
    ((DiffSchemas A B).ModelsAdded.map Model.TableName).toFinset =
      ((DiffSchemas B A).ModelsRemoved.map Model.TableName).toFinset ∧
    ((DiffSchemas A B).ModelsRemoved.map Model.TableName).toFinset =
      ((DiffSchemas B A).ModelsAdded.map Model.TableName).toFinset :=
  ⟨rfl, rfl⟩

/-- C4 (code evaluated at the failing input): a Decimal field carrying the
db.Decimal(10,2) override is rendered with bare column type Decimal by the
generator (the override is dropped), although the comparison path honors
it and a db.VarChar(255) override is rendered with its parameter. -/
theorem dbDecimal_override_dropped_in_rendering :
    generateAddColumnSQL
      ⟨"products", ⟨"price", "price", "Decimal",
        [⟨"db.Decimal", ["10", "2"]⟩], false, false⟩, nilField, "added"⟩ =
      "ALTER TABLE products ADD COLUMN price Decimal NOT NULL;" ∧
    goTypeToSQLType "Decimal" false [⟨"db.Decimal", ["10", "2"]⟩] = "Decimal" ∧
    GetSQLTypeForField ⟨"price", "price", "Decimal",
      [⟨"db.Decimal", ["10", "2"]⟩], false, false⟩ = "DECIMAL(10,2)" ∧
    goTypeToSQLType "String" false [⟨"db.VarChar", ["255"]⟩] = "VARCHAR(255)" := by
  refine ⟨by decide, by decide, by decide, by decide⟩

/-- C5 (counterexample): the model-level attribute argument splitter is not
bracket-aware: the bracket list in the double-at unique attribute is split
at its inner comma, leaving an argument that opens a bracket without
closing it. -/
theorem modelAttr_split_bracket_fragment_cex :
    (parseModelAttribute "@@unique([a, b])").Args = ["[a", "b]"] ∧
    "[a" ∈ (parseModelAttribute "@@unique([a, b])").Args ∧
    containsSub "[a" "[" = true ∧ containsSub "[a" "]" = false := by
  refine ⟨by decide, by decide, by decide, by decide⟩

/-- C5 (amended): the argument list of a model-level attribute is split on
every comma regardless of bracket nesting, and the downstream index-field
resolution recovers the field names by stripping bracket characters. -/
theorem modelAttr_naive_comma_split :
    parseModelAttribute "@@unique([a, b])" = ⟨"unique", ["[a", "b]"]⟩ ∧
    parseIndexFields ["[a", "b]"]
      [⟨"a", "col_a", "Int", [], false, false⟩,
       ⟨"b", "col_b", "Int", [], false, false⟩] = ["col_a", "col_b"] := by
  refine ⟨by decide, by decide⟩

/-- C6: the field-level attribute argument string with two bracketed lists
splits into exactly two top-level arguments, not four. -/
theorem fieldAttr_bracket_aware_split :
    (parseFieldAttribute "@relation(fields: [a, b], references: [c, d])").Args =
      ["fields: [a, b]", "references: [c, d]"] ∧
    (parseFieldAttribute "@relation(fields: [a, b], references: [c, d])").Args.length = 2 := by
  refine ⟨by decide, by decide⟩

/-- C8: a column replayed from a migration file is reconstructed as
nullable exactly when its definition text contains neither NOT NULL nor
PRIMARY KEY (both replay paths: the statement parser's column definitions
and the regex-based migration replayer). -/
theorem replayedField_nullability (d : String)
    (h : 2 ≤ (fieldsOf d).length) :
    ((fieldOfColumn (parseColumnDefinition d)).IsOptional = true ↔
      (containsSub (toUpperStr d) "NOT NULL" = false ∧
       containsSub (toUpperStr d) "PRIMARY KEY" = false)) ∧
    (∀ columnName : String,
      (mkReplayedField columnName d).IsOptional = true ↔
      (containsSub (toUpperStr d) "NOT NULL" = false ∧
       containsSub (toUpperStr d) "PRIMARY KEY" = false)) := by
  constructor
  · unfold fieldOfColumn parseColumnDefinition
    have h2 : ¬ ((fieldsOf d).length < 2) := by omega
    simp only [h2, if_false]
    simp [Bool.and_eq_true, Bool.not_eq_true']
  · intro columnName
    unfold mkReplayedField
    simp [Bool.and_eq_true, Bool.not_eq_true']

/-- Witness for C8 at the definition "email TEXT NOT NULL": the replayed
column is not nullable. -/
theorem replayedField_nullability_witness :
    2 ≤ (fieldsOf "email TEXT NOT NULL").length ∧
    ((fieldOfColumn (parseColumnDefinition "email TEXT NOT NULL")).IsOptional = true ↔
      (containsSub (toUpperStr "email TEXT NOT NULL") "NOT NULL" = false ∧
       containsSub (toUpperStr "email TEXT NOT NULL") "PRIMARY KEY" = false)) :=
  ⟨by decide, (replayedField_nullability "email TEXT NOT NULL" (by decide)).1⟩

/-- C10: when the diff's added/field collections are all empty, the
generate command reports no changes and writes no file, regardless of the
removal collections. -/
theorem removalOnly_diff_reports_no_changes (diff : SchemaDiff)
    (h1 : diff.ModelsAdded = []) (h2 : diff.EnumsAdded = [])
    (h3 : diff.FieldsAdded = []) (h4 : diff.FieldsRemoved = [])
    (h5 : diff.FieldsModified = []) :
    generateCommandOutcome diff = GenOutcome.reportNoChanges := by
  unfold generateCommandOutcome hasNoChanges
  simp [h1, h2, h3, h4, h5]

/-- Witness for C10 on a removal-only diff: a removed model and a removed
enum are present, yet the command reports no changes. -/
theorem removalOnly_diff_reports_no_changes_witness :
    (⟨[], [⟨"User", "users", [], []⟩], [], [⟨"UserStatus", ["ACTIVE"]⟩],
      [], [], []⟩ : SchemaDiff).ModelsRemoved ≠ [] ∧
    (⟨[], [⟨"User", "users", [], []⟩], [], [⟨"UserStatus", ["ACTIVE"]⟩],
      [], [], []⟩ : SchemaDiff).EnumsRemoved ≠ [] ∧
    generateCommandOutcome
      ⟨[], [⟨"User", "users", [], []⟩], [], [⟨"UserStatus", ["ACTIVE"]⟩],
       [], [], []⟩ = GenOutcome.reportNoChanges :=
  ⟨by decide, by decide,
   removalOnly_diff_reports_no_changes _ rfl rfl rfl rfl rfl⟩

theorem foldl_enumAdd (l : List Enum) (acc : List String) :
    l.foldl (fun acc e => acc ++ [wrapGooseStatement (generateEnumSQL e)]) acc =
      acc ++ flatBlocks enumAddBlock l :=
  foldl_append_flatBlocks _ _ (fun _ _ => rfl) l acc

theorem foldl_fieldAdd (l : List FieldChange) (acc : List String) :
    l.foldl (fun acc fc =>
      let stmt := generateAddColumnSQL fc
      if stmt ≠ "" then acc ++ [wrapGooseStatement stmt] else acc) acc =
      acc ++ flatBlocks fieldAddBlock l :=
  foldl_append_flatBlocks _ _ (fun a fc => by
    by_cases h : generateAddColumnSQL fc = "" <;> simp [fieldAddBlock, h]) l acc

theorem foldl_fieldRemove (l : List FieldChange) (acc : List String) :
    l.foldl (fun acc fc =>
      let stmt := generateDropColumnSQL fc
      if stmt ≠ "" then
        acc ++ [wrapGooseStatementWithWarning stmt
          ("IRREVERSIBLE: Dropping column " ++ fc.ModelName ++ "." ++
           fc.Field.ColumnName ++ " - all data in this column will be lost!")]
      else acc) acc = acc ++ flatBlocks fieldRemoveBlock l :=
  foldl_append_flatBlocks _ _ (fun a fc => by
    by_cases h : generateDropColumnSQL fc = "" <;> simp [fieldRemoveBlock, h]) l acc

theorem foldl_fieldModify (l : List FieldChange) (acc : List String) :
    l.foldl (fun acc fc =>
      let r := generateModifyColumnSQLWithWarning fc
      if r.1 ≠ "" then
        if r.2 ≠ "" then acc ++ [wrapGooseStatementWithWarning r.1 r.2]
        else acc ++ [wrapGooseStatement r.1]
      else acc) acc = acc ++ flatBlocks fieldModifyBlock l :=
  foldl_append_flatBlocks _ _ (fun a fc => by
    by_cases h1 : (generateModifyColumnSQLWithWarning fc).1 = "" <;>
      by_cases h2 : (generateModifyColumnSQLWithWarning fc).2 = "" <;>
      simp [fieldModifyBlock, h1, h2]) l acc

theorem foldl_modelCreate (l : List Model) (acc : List String) :
    l.foldl (fun acc m =>
      let a := createTableArtifacts m
      (acc ++ [wrapGooseStatement a.1]) ++ a.2.1.map wrapGooseStatement ++
      a.2.2.map wrapGooseStatement) acc = acc ++ flatBlocks modelCreateBlocks l :=
  foldl_append_flatBlocks _ _ (fun a m => by
    simp [modelCreateBlocks]) l acc

theorem foldl_modelDrop (l : List Model) (acc : List String) :
    l.foldl (fun acc m =>
      acc ++ [wrapGooseStatementWithWarning
        ("DROP TABLE IF EXISTS " ++ m.TableName ++ ";")
        ("IRREVERSIBLE: Dropping table " ++ m.TableName ++
         " - all data will be lost!")]) acc =
      acc ++ flatBlocks modelDropBlock l :=
  foldl_append_flatBlocks _ _ (fun _ _ => rfl) l acc

theorem foldl_modelCreate2 (l : List Model) (acc : List String) :
    l.foldl (fun acc m =>
      acc ++ ([wrapGooseStatement (createTableArtifacts m).1] ++
        ((createTableArtifacts m).2.1.map wrapGooseStatement ++
         (createTableArtifacts m).2.2.map wrapGooseStatement))) acc =
      acc ++ flatBlocks modelCreateBlocks l :=
  foldl_append_flatBlocks _ _ (fun a m => by
    simp [modelCreateBlocks]) l acc

/-- C7: the up migration is exactly the blank-line-joined concatenation of
the enum-creation blocks, then field additions, then field removals, then
field modifications, then table creations (each CREATE TABLE followed by
its unique indexes, then its plain indexes), then table removals. -/
theorem generateMigrationSQL_section_order (diff : SchemaDiff) :
    GenerateMigrationSQL diff = joinSep "\n\n"
      (flatBlocks enumAddBlock diff.EnumsAdded ++
       flatBlocks fieldAddBlock diff.FieldsAdded ++
       flatBlocks fieldRemoveBlock diff.FieldsRemoved ++
       flatBlocks fieldModifyBlock diff.FieldsModified ++
       flatBlocks modelCreateBlocks diff.ModelsAdded ++
       flatBlocks modelDropBlock diff.ModelsRemoved) := by
  simp only [GenerateMigrationSQL, foldl_enumAdd, foldl_fieldAdd,
    foldl_fieldRemove, foldl_fieldModify, foldl_modelCreate,
    foldl_modelCreate2, foldl_modelDrop, List.nil_append, List.append_assoc]

/-- C9: DiffSchemas identifies tables solely by TableName: a TableName is
reported added exactly when it is a target table name absent from the
current schema, symmetrically for removed, and schemas with the same
table-name sets (for instance after renaming only a model's declarative
Name) produce no model additions or removals. -/
theorem diff_models_keyed_by_tableName (cur tgt : Schema) (t : String) :
    (t ∈ (DiffSchemas cur tgt).ModelsAdded.map Model.TableName ↔
      (t ∈ tgt.Models.map Model.TableName ∧
       t ∉ cur.Models.map Model.TableName)) ∧
    (t ∈ (DiffSchemas cur tgt).ModelsRemoved.map Model.TableName ↔
      (t ∈ cur.Models.map Model.TableName ∧
       t ∉ tgt.Models.map Model.TableName)) ∧
    ((∀ s : String, s ∈ cur.Models.map Model.TableName ↔
        s ∈ tgt.Models.map Model.TableName) →
      (DiffSchemas cur tgt).ModelsAdded = [] ∧
      (DiffSchemas cur tgt).ModelsRemoved = []) := by
  refine ⟨mem_missing_names cur.Models tgt.Models t,
    mem_missing_names tgt.Models cur.Models t, ?_⟩
  intro hsame
  constructor
  · rw [List.eq_nil_iff_forall_not_mem]
    intro m hm
    have hmem : m.TableName ∈
        (DiffSchemas cur tgt).ModelsAdded.map Model.TableName :=
      List.mem_map_of_mem _ hm
    have h2 := (mem_missing_names cur.Models tgt.Models m.TableName).mp hmem
    exact h2.2 ((hsame m.TableName).mpr h2.1)
  · rw [List.eq_nil_iff_forall_not_mem]
    intro m hm
    have hmem : m.TableName ∈
        (DiffSchemas cur tgt).ModelsRemoved.map Model.TableName :=
      List.mem_map_of_mem _ hm
    have h2 := (mem_missing_names tgt.Models cur.Models m.TableName).mp hmem
    exact h2.2 ((hsame m.TableName).mp h2.1)

/-- Witness for C9: renaming the model User to Customer while keeping the
physical table name users yields no model added and none removed. -/
theorem diff_models_keyed_by_tableName_witness :
    (DiffSchemas ⟨[⟨"User", "users", [], []⟩], []⟩
      ⟨[⟨"Customer", "users", [], []⟩], []⟩).ModelsAdded = [] ∧
    (DiffSchemas ⟨[⟨"User", "users", [], []⟩], []⟩
      ⟨[⟨"Customer", "users", [], []⟩], []⟩).ModelsRemoved = [] :=
  (diff_models_keyed_by_tableName ⟨[⟨"User", "users", [], []⟩], []⟩
    ⟨[⟨"Customer", "users", [], []⟩], []⟩ "users").2.2 (fun _ => Iff.rfl)

end SchemaMgr
